import Mathlib

/-
Shallow embedding of the s3-benchmark scripts
(download-benchmark.py, upload-benchmark.py, tune-multipart.py).

Machine integers are modelled as Nat, Python floats as rationals,
the filesystem as a map from names to file contents, and Python
exceptions as explicit error values.
-/

/-- Python str.lower() as applied character by character (all inputs here are ASCII). -/
def pyLower (s : String) : String := String.mk (s.data.map Char.toLower)

/-- Python truthy parsing used identically at upload-benchmark.py:109,
download-benchmark.py:101 and tune-multipart.py:146:
the expression s.lower() in ['true', '1', 't', 'y', 'yes']. -/
def str_to_bool (s : String) : Bool :=
  ["true", "1", "t", "y", "yes"].contains (pyLower s)

/-- Python runtime errors that the modelled code paths can raise. -/
inductive PyError where
  | valueError (msg : String)
deriving Repr, DecidableEq

/-- Python builtin max(iterable, key=k): scans left to right and replaces the
current best only when the key is strictly greater, so on ties the earliest
element wins; an empty iterable gives none (Python raises ValueError). -/
def pymax {α : Type} (key : α → ℚ) : List α → Option α
  | [] => none
  | x :: xs => some (xs.foldl (fun b y => if key b < key y then y else b) x)

/-- itertools.product(l1, l2, l3, l4) as used at tune-multipart.py:131-133:
nested iteration with the first list varying outermost (slowest) and the
last list varying innermost (fastest). -/
def itertools_product4 {α β γ δ : Type} (l1 : List α) (l2 : List β) (l3 : List γ)
    (l4 : List δ) : List (α × β × γ × δ) :=
  l1.flatMap fun a => l2.flatMap fun b => l3.flatMap fun c => l4.map fun d => (a, b, c, d)

/-- boto3 TransferConfig as constructed by all three scripts: the four keyword
arguments the scripts pass. -/
structure TransferConfig where
  multipart_threshold : Nat
  max_concurrency : Nat
  multipart_chunksize : Nat
  use_threads : Bool
deriving Repr, DecidableEq

namespace Download

/-- calculate_speed from download-benchmark.py lines 44-51:
speed_bps = file_size * 8 / time_taken; speed_mbps = speed_bps / 1e6. -/
def calculate_speed (time_taken : ℚ) (file_size : ℚ) : ℚ :=
  file_size * 8 / time_taken / 1000000

/-- One row of the results list built at download-benchmark.py lines 137-145:
[size, time_taken, speed_mbps, multipart_threshold, max_concurrency,
multipart_chunksize, use_threads]. -/
structure Row where
  size : Nat
  time_taken : ℚ
  speed_mbps : ℚ
  multipart_threshold : Nat
  max_concurrency : Nat
  multipart_chunksize : Nat
  use_threads : Bool
deriving Repr, DecidableEq

/-- The fixed-configuration download sweep loop, download-benchmark.py lines
123-149: one iteration per element of file_sizes, in list order, with a single
TransferConfig applied to all. The wall-clock duration of each transfer and
the size reported by os.path.getsize on the downloaded file are supplied by
the environment as functions of the size being tested. -/
def sweep (file_sizes : List Nat) (thr conc chunk : Nat) (ut : Bool)
    (duration : Nat → ℚ) (fsize : Nat → ℚ) : List Row :=
  file_sizes.map fun size =>
    { size := size
      time_taken := duration size
      speed_mbps := calculate_speed (duration size) (fsize size)
      multipart_threshold := thr
      max_concurrency := conc
      multipart_chunksize := chunk
      use_threads := ut }

end Download

namespace Upload

/-- calculate_speed from upload-benchmark.py lines 52-59, the same formula as
the download script. -/
def calculate_speed (time_taken : ℚ) (file_size : ℚ) : ℚ :=
  file_size * 8 / time_taken / 1000000

/-- One row of the results list built at upload-benchmark.py lines 150-158. -/
structure Row where
  size : Nat
  time_taken : ℚ
  speed_mbps : ℚ
  multipart_threshold : Nat
  max_concurrency : Nat
  multipart_chunksize : Nat
  use_threads : Bool
deriving Repr, DecidableEq

/-- Operations performed by one iteration of the upload loop,
upload-benchmark.py lines 131-162, in source order: create_dummy_file
(line 137), upload_file (line 142), os.path.getsize (line 143),
os.remove (line 161). -/
inductive Op where
  | createDummyFile
  | uploadTransfer
  | sampleFileSize
  | removeFile
deriving Repr, DecidableEq

/-- Source order of the operations in the upload loop body. -/
def loopBody : List Op :=
  [Op.createDummyFile, Op.uploadTransfer, Op.sampleFileSize, Op.removeFile]

/-- Size in bytes of the dummy file written by create_dummy_file
(upload-benchmark.py line 39): size_in_mb * 1024 * 1024 random bytes. -/
def dummyFileBytes (size_in_mb : Nat) : Nat := size_in_mb * 1024 * 1024

/-- os.path.getsize(file_name) as executed at upload-benchmark.py line 143,
after upload_file has returned. mutate describes any external change to the
local file's size while the upload runs (the identity function when nothing
touches the file); the value sampled is the post-transfer size. -/
def sampledFileSize (size_in_mb : Nat) (mutate : Nat → Nat) : Nat :=
  mutate (dummyFileBytes size_in_mb)

/-- One iteration of the upload loop (upload-benchmark.py lines 131-158):
the stored row uses the duration reported for the transfer and the file size
sampled by os.path.getsize after the transfer. -/
def iteration (size_in_mb thr conc chunk : Nat) (ut : Bool) (time_taken : ℚ)
    (mutate : Nat → Nat) : Row :=
  { size := size_in_mb
    time_taken := time_taken
    speed_mbps := calculate_speed time_taken (sampledFileSize size_in_mb mutate : Nat)
    multipart_threshold := thr
    max_concurrency := conc
    multipart_chunksize := chunk
    use_threads := ut }

end Upload

namespace Tune

/-- calculate_speed from tune-multipart.py lines 44-50, the same formula as
the other two scripts. -/
def calculate_speed (time_taken : ℚ) (file_size : ℚ) : ℚ :=
  file_size * 8 / time_taken / 1000000

/-- One row of the results list built at tune-multipart.py lines 166-173:
[multipart_threshold, max_concurrency, multipart_chunksize, use_threads,
time_taken, speed_mbps]. The use_threads entry is the RAW string taken from
the parameter list, not the parsed boolean. -/
structure Row where
  multipart_threshold : Nat
  max_concurrency : Nat
  multipart_chunksize : Nat
  use_threads : String
  time_taken : ℚ
  speed_mbps : ℚ
deriving Repr, DecidableEq

/-- find_fastest_parameters from tune-multipart.py lines 98-110:
max(results, key=lambda x: x[5]) where index 5 is the speed column; the
returned dictionary carries exactly the six fields of the winning row. -/
def find_fastest_parameters (results : List Row) : Except PyError Row :=
  match pymax (fun r => r.speed_mbps) results with
  | none => Except.error (PyError.valueError "max() arg is an empty sequence")
  | some r => Except.ok r

/-- The tuning sweep loop of tune-multipart.py lines 145-177: one iteration
per element of itertools.product over the four parameter lists; each row
stores the raw use_threads string together with the measured duration and
the speed computed from os.path.getsize of the downloaded file. The
environment supplies duration and observed file size per configuration. -/
def sweep (ths cons chks : List Nat) (raws : List String)
    (duration : Nat × Nat × Nat × String → ℚ)
    (fsize : Nat × Nat × Nat × String → ℚ) : List Row :=
  (itertools_product4 ths cons chks raws).map fun p =>
    { multipart_threshold := p.1
      max_concurrency := p.2.1
      multipart_chunksize := p.2.2.1
      use_threads := p.2.2.2
      time_taken := duration p
      speed_mbps := calculate_speed (duration p) (fsize p) }

/-- TransferConfig objects constructed at tune-multipart.py lines 146-154:
the boolean passed to boto3 is str_to_bool of the raw string. -/
def sweepConfigs (ths cons chks : List Nat) (raws : List String) :
    List TransferConfig :=
  (itertools_product4 ths cons chks raws).map fun p =>
    { multipart_threshold := p.1
      max_concurrency := p.2.1
      multipart_chunksize := p.2.2.1
      use_threads := str_to_bool p.2.2.2 }

/-- Marker sizes of the scatter plot, tune-multipart.py line 87:
100 if use == 'True' else 50, where use is the stored use_threads string. -/
def plotMarkerSizes (results : List Row) : List Nat :=
  results.map fun r => if r.use_threads = "True" then 100 else 50

/-- The tuning pipeline after environment parsing, tune-multipart.py main
(lines 142-198): run the sweep, then reduce with find_fastest_parameters.
There is no validation step of any kind before the sweep. -/
def run (ths cons chks : List Nat) (raws : List String)
    (duration : Nat × Nat × Nat × String → ℚ)
    (fsize : Nat × Nat × Nat × String → ℚ) :
    Except PyError (List Row × Row) :=
  match find_fastest_parameters (sweep ths cons chks raws duration fsize) with
  | Except.error e => Except.error e
  | Except.ok best => Except.ok (sweep ths cons chks raws duration fsize, best)

end Tune

/-- Contents of a file written by one of the scripts. -/
inductive FileData where
  | tuneCsv (header : List String) (rows : List Tune.Row)
  | downloadCsv (header : List String) (rows : List Download.Row)
  | bestJson (best : Tune.Row)

/-- Filesystem state: file name to contents. -/
def FS : Type := String → Option FileData

namespace Tune

/-- Header row written by save_results_to_csv, tune-multipart.py lines 58-65. -/
def csvHeader : List String :=
  ["Multipart Threshold (bytes)", "Max Concurrency",
   "Multipart Chunksize (bytes)", "Use Threads", "Time Taken (s)",
   "Download Speed (Mbps)"]

/-- save_results_to_csv from tune-multipart.py lines 52-66: opens filename
with mode 'w' (truncating any existing file) and writes the header followed
by every result row, so the resulting contents depend only on results. -/
def save_results_to_csv (results : List Row) (filename : String) (fs : FS) : FS :=
  fun n => if n = filename then some (FileData.tuneCsv csvHeader results) else fs n

/-- save_fastest_to_json from tune-multipart.py lines 112-117: opens filename
with mode 'w' and dumps the six-field best-configuration dictionary. -/
def save_fastest_to_json (best : Row) (filename : String) (fs : FS) : FS :=
  fun n => if n = filename then some (FileData.bestJson best) else fs n

end Tune

namespace Download

/-- Header row written by save_results_to_csv, download-benchmark.py lines 60-68. -/
def csvHeader : List String :=
  ["File Size (MB)", "Time Taken (s)", "Download Speed (Mbps)",
   "Multipart Threshold (bytes)", "Max Concurrency",
   "Multipart Chunksize (bytes)", "Use Threads"]

/-- save_results_to_csv from download-benchmark.py lines 53-69: opens filename
with mode 'w' (truncating any existing file) and writes the header followed
by every result row. -/
def save_results_to_csv (results : List Row) (filename : String) (fs : FS) : FS :=
  fun n => if n = filename then some (FileData.downloadCsv csvHeader results) else fs n

end Download

/-- Helper: the left fold implementing Python max returns an element of the
scanned list, bounds every key, and is the first element attaining the
maximal key (the filter keeping maximal-key elements starts with it). -/
theorem pyfold_spec {α : Type} (key : α → ℚ) (xs : List α) :
    ∀ x : α,
      (xs.foldl (fun b y => if key b < key y then y else b) x) ∈ x :: xs
      ∧ (∀ y ∈ x :: xs,
          key y ≤ key (xs.foldl (fun b y => if key b < key y then y else b) x))
      ∧ ((x :: xs).filter
            (fun y =>
              decide (key (xs.foldl (fun b y => if key b < key y then y else b) x) ≤ key y))).head?
          = some (xs.foldl (fun b y => if key b < key y then y else b) x) := by
  induction xs with
  | nil =>
    intro x
    refine ⟨List.mem_cons_self x [], ?_, ?_⟩
    · intro y hy
      rcases List.mem_cons.mp hy with h | h
      · subst h; exact le_refl _
      · cases h
    · simp [List.filter_cons]
  | cons y ys ih =>
    intro x
    simp only [List.foldl_cons]
    by_cases hxy : key x < key y
    · simp only [if_pos hxy]
      obtain ⟨hm, hub, hfilt⟩ := ih y
      refine ⟨List.mem_cons_of_mem x hm, ?_, ?_⟩
      · intro z hz
        rcases List.mem_cons.mp hz with h | h
        · subst h
          exact le_of_lt (lt_of_lt_of_le hxy (hub y (List.mem_cons_self y ys)))
        · exact hub z h
      · rw [List.filter_cons]
        have hx : ¬ key (ys.foldl (fun b y => if key b < key y then y else b) y) ≤ key x := by
          have := hub y (List.mem_cons_self y ys)
          intro hle
          exact absurd (lt_of_lt_of_le hxy this) (not_lt.mpr hle)
        simp only [decide_eq_true_eq]
        rw [if_neg hx]
        exact hfilt
    · simp only [if_neg hxy]
      obtain ⟨hm, hub, hfilt⟩ := ih x
      have hyx : key y ≤ key x := not_lt.mp hxy
      refine ⟨?_, ?_, ?_⟩
      · rcases List.mem_cons.mp hm with h | h
        · rw [h]; exact List.mem_cons_self x (y :: ys)
        · exact List.mem_cons_of_mem x (List.mem_cons_of_mem y h)
      · intro z hz
        rcases List.mem_cons.mp hz with h | h
        · rw [h]
          exact hub x (List.mem_cons_self x ys)
        · rcases List.mem_cons.mp h with h2 | h2
          · rw [h2]
            exact le_trans hyx (hub x (List.mem_cons_self x ys))
          · exact hub z (List.mem_cons_of_mem x h2)
      · by_cases hpx : key (ys.foldl (fun b y => if key b < key y then y else b) x) ≤ key x
        · have hxhead : (List.filter
              (fun z => decide (key (ys.foldl (fun b y => if key b < key y then y else b) x) ≤ key z))
              (x :: ys)).head? = some x := by
            rw [List.filter_cons]
            simp [hpx]
          have hmx : ys.foldl (fun b y => if key b < key y then y else b) x = x := by
            have := hfilt
            rw [hxhead] at this
            exact (Option.some.inj this).symm
          simp [List.filter_cons, hpx, hmx]
        · have hpy : ¬ key (ys.foldl (fun b y => if key b < key y then y else b) x) ≤ key y := by
            intro hle
            exact hpx (le_trans hle hyx)
          simp only [List.filter_cons, decide_eq_true_eq]
          rw [if_neg hpx, if_neg hpy]
          rw [List.filter_cons] at hfilt
          simp only [decide_eq_true_eq] at hfilt
          rw [if_neg hpx] at hfilt
          exact hfilt

/-- C1: for every non-empty result list, find_fastest_parameters returns a row
of the list with maximal speed, and on ties the row that occurs first in
insertion (execution) order: the stored list filtered to maximal-speed rows
starts with the returned row. -/
theorem find_fastest_parameters_first_max (results : List Tune.Row)
    (hne : results ≠ []) :
    ∃ best, Tune.find_fastest_parameters results = Except.ok best
      ∧ best ∈ results
      ∧ (∀ r ∈ results, r.speed_mbps ≤ best.speed_mbps)
      ∧ (results.filter fun r => decide (best.speed_mbps ≤ r.speed_mbps)).head?
          = some best := by
  match results, hne with
  | x :: xs, _ =>
    obtain ⟨hm, hub, hfilt⟩ := pyfold_spec (fun r : Tune.Row => r.speed_mbps) xs x
    exact ⟨_, rfl, hm, hub, hfilt⟩

/-- Witness for C1: a two-row result set with tied maximal speeds; the
selector returns a row satisfying all the stated properties. -/
theorem find_fastest_parameters_first_max_witness :
    ([⟨10485760, 5, 10485760, "True", 2, 400⟩,
      ⟨52428800, 10, 10485760, "False", 2, 400⟩] : List Tune.Row) ≠ []
    ∧ ∃ best,
        Tune.find_fastest_parameters
            [⟨10485760, 5, 10485760, "True", 2, 400⟩,
             ⟨52428800, 10, 10485760, "False", 2, 400⟩] = Except.ok best
        ∧ best ∈ ([⟨10485760, 5, 10485760, "True", 2, 400⟩,
                   ⟨52428800, 10, 10485760, "False", 2, 400⟩] : List Tune.Row)
        ∧ (∀ r ∈ ([⟨10485760, 5, 10485760, "True", 2, 400⟩,
                   ⟨52428800, 10, 10485760, "False", 2, 400⟩] : List Tune.Row),
            r.speed_mbps ≤ best.speed_mbps)
        ∧ (([⟨10485760, 5, 10485760, "True", 2, 400⟩,
             ⟨52428800, 10, 10485760, "False", 2, 400⟩] : List Tune.Row).filter
              fun r => decide (best.speed_mbps ≤ r.speed_mbps)).head? = some best :=
  ⟨by simp, find_fastest_parameters_first_max _ (by simp)⟩

/-- C6: find_fastest_parameters invoked on an empty result set fails, with
the error Python max raises on an empty sequence (the failure the spec
names EmptyResultError). -/
theorem find_fastest_parameters_empty_fails :
    Tune.find_fastest_parameters [] =
      Except.error (PyError.valueError "max() arg is an empty sequence") := rfl

/-- C2: calculate_speed in the download script and in the upload script both
compute subject_size_bytes * 8 / duration_seconds / 1e6 megabits per second. -/
theorem calculate_speed_formula (subject_size_bytes duration_seconds : ℚ)
    (h : 0 < duration_seconds) :
    Download.calculate_speed duration_seconds subject_size_bytes
        = subject_size_bytes * 8 / duration_seconds / 1000000
      ∧ Upload.calculate_speed duration_seconds subject_size_bytes
        = subject_size_bytes * 8 / duration_seconds / 1000000 :=
  ⟨rfl, rfl⟩

/-- Witness for C2 at a 100 MB subject transferred in 2 seconds. -/
theorem calculate_speed_formula_witness :
    (0 : ℚ) < 2
    ∧ (Download.calculate_speed 2 104857600 = 104857600 * 8 / 2 / 1000000
        ∧ Upload.calculate_speed 2 104857600 = 104857600 * 8 / 2 / 1000000) :=
  ⟨by norm_num, calculate_speed_formula 104857600 2 (by norm_num)⟩

/-- Counterexample for C7: the 500 MB run at 5.0 s computes to exactly
838.8608 Mbps, which does not round to the claimed 839.86 Mbps. -/
theorem speed_500mb_not_839_86 :
    Download.calculate_speed 5 524288000 = 524288 / 625
    ∧ ¬ |Download.calculate_speed 5 524288000 - 83986 / 100| < 1 / 200 := by
  constructor
  · norm_num [Download.calculate_speed]
  · intro hcontra
    rw [abs_sub_lt_iff] at hcontra
    norm_num [Download.calculate_speed] at hcontra

/-- C7 amended: the sweep over 104857600 and 524288000 bytes with durations
2.0 s and 5.0 s computes exactly 419.4304 and 838.8608 Mbps (419.43 and
838.86 to two decimals), and the Python-max selection picks the 500 MB run. -/
theorem sweep_100_500_speeds :
    Download.calculate_speed 2 104857600 = 262144 / 625
    ∧ |Download.calculate_speed 2 104857600 - 41943 / 100| < 1 / 200
    ∧ Download.calculate_speed 5 524288000 = 524288 / 625
    ∧ |Download.calculate_speed 5 524288000 - 83886 / 100| < 1 / 200
    ∧ pymax (fun p : Nat × ℚ => p.2)
        [(100, Download.calculate_speed 2 104857600),
         (500, Download.calculate_speed 5 524288000)]
        = some (500, 524288 / 625) := by
  refine ⟨?_, ?_, ?_, ?_, ?_⟩
  · norm_num [Download.calculate_speed]
  · rw [abs_sub_lt_iff]
    norm_num [Download.calculate_speed]
  · norm_num [Download.calculate_speed]
  · rw [abs_sub_lt_iff]
    norm_num [Download.calculate_speed]
  · norm_num [Download.calculate_speed, pymax]

/-- Counterexample for C4: os.path.getsize runs after upload_file in the loop
body, and when the local file's size changes during the transfer the recorded
value is the post-transfer size, not the pre-transfer size. -/
theorem upload_size_sampled_after_not_before :
    ¬ Upload.loopBody.indexOf Upload.Op.sampleFileSize
        < Upload.loopBody.indexOf Upload.Op.uploadTransfer
    ∧ Upload.sampledFileSize 1 (fun n => n + 7) ≠ Upload.dummyFileBytes 1
    ∧ (Upload.iteration 1 52428800 10 52428800 true 2 (fun n => n + 7)).speed_mbps
        ≠ Upload.calculate_speed 2 (Upload.dummyFileBytes 1 : Nat) := by
  refine ⟨by decide, by decide, ?_⟩
  norm_num [Upload.iteration, Upload.sampledFileSize, Upload.dummyFileBytes,
    Upload.calculate_speed]

/-- C4 amended: for every upload run the subject size fed into the throughput
computation is the size of the local source file sampled AFTER the transfer
completes (and before the file is removed); it equals the size written before
the transfer only when nothing mutates the file in between. -/
theorem upload_size_sampled_after_transfer (size thr conc chunk : Nat)
    (ut : Bool) (t : ℚ) (mutate : Nat → Nat) :
    Upload.loopBody.indexOf Upload.Op.uploadTransfer
        < Upload.loopBody.indexOf Upload.Op.sampleFileSize
    ∧ Upload.loopBody.indexOf Upload.Op.sampleFileSize
        < Upload.loopBody.indexOf Upload.Op.removeFile
    ∧ Upload.sampledFileSize size mutate = mutate (Upload.dummyFileBytes size)
    ∧ (Upload.iteration size thr conc chunk ut t mutate).speed_mbps
        = Upload.calculate_speed t (mutate (Upload.dummyFileBytes size) : Nat)
    ∧ Upload.sampledFileSize size (fun n => n) = Upload.dummyFileBytes size := by
  exact ⟨by decide, by decide, rfl, rfl, rfl⟩

/-- Witness for C4 amended at concrete inputs. -/
theorem upload_size_sampled_after_transfer_witness :
    Upload.loopBody.indexOf Upload.Op.uploadTransfer
        < Upload.loopBody.indexOf Upload.Op.sampleFileSize
    ∧ Upload.loopBody.indexOf Upload.Op.sampleFileSize
        < Upload.loopBody.indexOf Upload.Op.removeFile
    ∧ Upload.sampledFileSize 100 (fun n => n + 1) = (fun n => n + 1) (Upload.dummyFileBytes 100)
    ∧ (Upload.iteration 100 52428800 10 52428800 true 2 (fun n => n + 1)).speed_mbps
        = Upload.calculate_speed 2 ((fun n => n + 1) (Upload.dummyFileBytes 100) : Nat)
    ∧ Upload.sampledFileSize 100 (fun n => n) = Upload.dummyFileBytes 100 :=
  upload_size_sampled_after_transfer 100 52428800 10 52428800 true 2 (fun n => n + 1)

/-- C8: the persist operations open their file with mode 'w', so persisting
the same results (or the same best configuration) twice to the same file
leaves exactly the contents a single persist leaves. -/
theorem persist_operations_idempotent (fs : FS) (csvName jsonName dlName : String)
    (results : List Tune.Row) (best : Tune.Row) (dlResults : List Download.Row) :
    Tune.save_results_to_csv results csvName
        (Tune.save_results_to_csv results csvName fs)
      = Tune.save_results_to_csv results csvName fs
    ∧ Tune.save_fastest_to_json best jsonName
        (Tune.save_fastest_to_json best jsonName fs)
      = Tune.save_fastest_to_json best jsonName fs
    ∧ Download.save_results_to_csv dlResults dlName
        (Download.save_results_to_csv dlResults dlName fs)
      = Download.save_results_to_csv dlResults dlName fs := by
  refine ⟨?_, ?_, ?_⟩
  · funext n
    by_cases h : n = csvName <;> simp [Tune.save_results_to_csv, h]
  · funext n
    by_cases h : n = jsonName <;> simp [Tune.save_fastest_to_json, h]
  · funext n
    by_cases h : n = dlName <;> simp [Download.save_results_to_csv, h]

/-- C9: the parsed use_threads boolean is true exactly when the lowercased
string is one of true, 1, t, y, yes; every other string, such as on,
enabled, or the empty string, silently parses to false rather than raising
an error. -/
theorem str_to_bool_characterization :
    (∀ s : String, str_to_bool s = true ↔
      (pyLower s = "true" ∨ pyLower s = "1" ∨ pyLower s = "t"
        ∨ pyLower s = "y" ∨ pyLower s = "yes"))
    ∧ str_to_bool "on" = false
    ∧ str_to_bool "enabled" = false
    ∧ str_to_bool "" = false
    ∧ str_to_bool "True" = true
    ∧ str_to_bool "YES" = true
    ∧ str_to_bool "1" = true := by
  refine ⟨?_, by decide, by decide, by decide, by decide, by decide, by decide⟩
  intro s
  simp only [str_to_bool, List.contains, List.elem_eq_mem, decide_eq_true_eq,
    List.mem_cons, List.not_mem_nil, or_false]

/-- C10: every stored row, and hence the tabular output and the
best-configuration document, carries the raw use_threads string from the
parameter list while the TransferConfig receives the parsed boolean; the
chart marker sizing compares the stored field to the exact string True, so
equivalent truthy inputs such as true are sized as non-threaded. -/
theorem tuning_stores_raw_use_threads_string :
    (∀ (ths cons chks : List Nat) (raws : List String)
        (dur fsz : Nat × Nat × Nat × String → ℚ),
      (Tune.sweep ths cons chks raws dur fsz).map (fun r => r.use_threads)
        = (itertools_product4 ths cons chks raws).map (fun p => p.2.2.2))
    ∧ (∀ (ths cons chks : List Nat) (raws : List String),
      (Tune.sweepConfigs ths cons chks raws).map (fun c => c.use_threads)
        = (itertools_product4 ths cons chks raws).map (fun p => str_to_bool p.2.2.2))
    ∧ str_to_bool "true" = true
    ∧ str_to_bool "yes" = true
    ∧ Tune.plotMarkerSizes
        (Tune.sweep [10485760] [5] [10485760] ["true"]
          (fun _ => 2) (fun _ => 104857600)) = [50]
    ∧ Tune.plotMarkerSizes
        (Tune.sweep [10485760] [5] [10485760] ["True"]
          (fun _ => 2) (fun _ => 104857600)) = [100]
    ∧ Tune.find_fastest_parameters
        (Tune.sweep [10485760] [5] [10485760] ["true"]
          (fun _ => 2) (fun _ => 104857600))
        = Except.ok ⟨10485760, 5, 10485760, "true", 2, Tune.calculate_speed 2 104857600⟩ := by
  refine ⟨?_, ?_, by decide, by decide, by decide, by decide, rfl⟩
  · intro ths cons chks raws dur fsz
    simp only [Tune.sweep, List.map_map]
    rfl
  · intro ths cons chks raws
    simp only [Tune.sweepConfigs, List.map_map]
    rfl

/-- Helper: a flatMap whose pieces all have length n has length
(number of pieces) * n. -/
theorem flatMap_length_const {α β : Type} {f : α → List β} {n : Nat}
    (h : ∀ a, (f a).length = n) (l : List α) :
    (l.flatMap f).length = l.length * n := by
  induction l with
  | nil => simp
  | cons a t ih =>
    rw [List.flatMap_cons, List.length_append, h, ih, List.length_cons, Nat.succ_mul]
    omega

/-- Helper: indexing into a flatMap whose pieces all have length n
decomposes as piece index and offset. -/
theorem flatMap_getElem?_const {α β : Type} {f : α → List β} {n : Nat}
    (h : ∀ a, (f a).length = n) (l : List α) :
    ∀ (i j : Nat), j < n →
      (l.flatMap f)[i * n + j]? = l[i]?.bind fun a => (f a)[j]? := by
  induction l with
  | nil => intro i j hj; simp
  | cons a t ih =>
    intro i j hj
    rw [List.flatMap_cons]
    cases i with
    | zero =>
      rw [Nat.zero_mul, Nat.zero_add]
      rw [List.getElem?_append_left (by rw [h]; exact hj)]
      simp
    | succ i =>
      have hsplit : (i + 1) * n + j = n + (i * n + j) := by rw [Nat.succ_mul]; omega
      rw [hsplit, List.getElem?_append_right (by rw [h]; omega)]
      have hsub : n + (i * n + j) - (f a).length = i * n + j := by rw [h]; omega
      rw [hsub, ih i j hj]
      simp

/-- Helper: row-major index bound. -/
theorem mul_index_lt {i j x n : Nat} (hi : i < x) (hj : j < n) :
    i * n + j < x * n := by
  have h1 : i * n + j < (i + 1) * n := by rw [Nat.succ_mul]; omega
  have h2 : (i + 1) * n ≤ x * n := Nat.mul_le_mul_right n hi
  omega

/-- Helper: multiplicity of a tuple in the innermost map of the product. -/
theorem count_map_tuple {α β γ δ : Type}
    [BEq α] [LawfulBEq α] [BEq β] [LawfulBEq β] [BEq γ] [LawfulBEq γ]
    [BEq δ] [LawfulBEq δ] [DecidableEq α] [DecidableEq β] [DecidableEq γ]
    [DecidableEq δ]
    (a x : α) (b y : β) (c z : γ) (l4 : List δ) (w : δ) :
    ((l4.map fun d => (a, b, c, d)).count (x, y, z, w))
      = if a = x ∧ b = y ∧ c = z then l4.count w else 0 := by
  induction l4 with
  | nil => simp only [List.map_nil, List.count_nil, ite_self]
  | cons d t ih =>
    rw [List.map_cons, List.count_cons, ih, List.count_cons]
    simp only [beq_iff_eq, Prod.mk.injEq]
    by_cases h : a = x ∧ b = y ∧ c = z
    · obtain ⟨h1, h2, h3⟩ := h
      by_cases hd : d = w
      · simp [h1, h2, h3, hd]
      · simp [h1, h2, h3, hd]
    · have hne : ¬ (a = x ∧ b = y ∧ c = z ∧ d = w) := by tauto
      rw [if_neg h, if_neg hne, if_neg h]

/-- Helper: multiplicity of a tuple in the two innermost levels of the product. -/
theorem count_flatMap_pair {α β γ δ : Type}
    [BEq α] [LawfulBEq α] [BEq β] [LawfulBEq β] [BEq γ] [LawfulBEq γ]
    [BEq δ] [LawfulBEq δ] [DecidableEq α] [DecidableEq β] [DecidableEq γ]
    [DecidableEq δ]
    (a x : α) (b y : β) (l3 : List γ) (z : γ) (l4 : List δ) (w : δ) :
    ((l3.flatMap fun c => l4.map fun d => (a, b, c, d)).count (x, y, z, w))
      = if a = x ∧ b = y then l3.count z * l4.count w else 0 := by
  induction l3 with
  | nil => simp
  | cons c t ih =>
    rw [List.flatMap_cons, List.count_append, count_map_tuple, ih, List.count_cons]
    by_cases h : a = x ∧ b = y
    · obtain ⟨h1, h2⟩ := h
      by_cases hc : c = z
      · simp [h1, h2, hc, Nat.add_mul]
        ring
      · simp [h1, h2, hc]
    · have hne : ¬ (a = x ∧ b = y ∧ c = z) := by tauto
      rw [if_neg hne, if_neg h, if_neg h]

/-- Helper: multiplicity of a tuple in the three innermost levels of the product. -/
theorem count_flatMap_triple {α β γ δ : Type}
    [BEq α] [LawfulBEq α] [BEq β] [LawfulBEq β] [BEq γ] [LawfulBEq γ]
    [BEq δ] [LawfulBEq δ] [DecidableEq α] [DecidableEq β] [DecidableEq γ]
    [DecidableEq δ]
    (a x : α) (l2 : List β) (y : β) (l3 : List γ) (z : γ) (l4 : List δ) (w : δ) :
    ((l2.flatMap fun b => l3.flatMap fun c => l4.map fun d => (a, b, c, d)).count
        (x, y, z, w))
      = if a = x then l2.count y * (l3.count z * l4.count w) else 0 := by
  induction l2 with
  | nil => simp
  | cons b t ih =>
    rw [List.flatMap_cons, List.count_append, count_flatMap_pair, ih, List.count_cons]
    by_cases h : a = x
    · by_cases hb : b = y
      · simp [h, hb, Nat.add_mul]
        ring
      · simp [h, hb]
    · have hne : ¬ (a = x ∧ b = y) := by tauto
      rw [if_neg hne, if_neg h, if_neg h]

/-- Helper: every tuple occurs in the product with multiplicity equal to the
product of the multiplicities of its components. -/
theorem itertools_product4_count {α β γ δ : Type}
    [BEq α] [LawfulBEq α] [BEq β] [LawfulBEq β] [BEq γ] [LawfulBEq γ]
    [BEq δ] [LawfulBEq δ] [DecidableEq α] [DecidableEq β] [DecidableEq γ]
    [DecidableEq δ]
    (l1 : List α) (l2 : List β) (l3 : List γ) (l4 : List δ)
    (x : α) (y : β) (z : γ) (w : δ) :
    ((itertools_product4 l1 l2 l3 l4).count (x, y, z, w))
      = l1.count x * (l2.count y * (l3.count z * l4.count w)) := by
  induction l1 with
  | nil => simp [itertools_product4]
  | cons a t ih =>
    show ((a :: t).flatMap fun a => l2.flatMap fun b => l3.flatMap fun c =>
        l4.map fun d => (a, b, c, d)).count (x, y, z, w) = _
    rw [List.flatMap_cons, List.count_append, count_flatMap_triple, List.count_cons]
    have iht : ((t.flatMap fun a => l2.flatMap fun b => l3.flatMap fun c =>
        l4.map fun d => (a, b, c, d)).count (x, y, z, w))
        = t.count x * (l2.count y * (l3.count z * l4.count w)) := ih
    rw [iht]
    by_cases h : a = x
    · simp [h, Nat.add_mul]
      ring
    · rw [if_neg h]
      simp [h]

/-- Helper: the product of four lists has the product of their lengths. -/
theorem itertools_product4_length {α β γ δ : Type}
    (l1 : List α) (l2 : List β) (l3 : List γ) (l4 : List δ) :
    (itertools_product4 l1 l2 l3 l4).length
      = l1.length * (l2.length * (l3.length * l4.length)) := by
  show (l1.flatMap fun a => l2.flatMap fun b => l3.flatMap fun c =>
      l4.map fun d => (a, b, c, d)).length = _
  refine flatMap_length_const (fun a => ?_) l1
  refine flatMap_length_const (fun b => ?_) l2
  refine flatMap_length_const (fun c => ?_) l3
  exact List.length_map l4 _

/-- Helper: the element of the product at row-major index decomposes into
one lookup per input list, with the first list varying slowest and the last
list varying fastest. -/
theorem itertools_product4_getElem? {α β γ δ : Type}
    (l1 : List α) (l2 : List β) (l3 : List γ) (l4 : List δ)
    (i j k m : Nat) (hj : j < l2.length) (hk : k < l3.length) (hm : m < l4.length) :
    (itertools_product4 l1 l2 l3 l4)[i * (l2.length * (l3.length * l4.length))
        + (j * (l3.length * l4.length) + (k * l4.length + m))]?
      = l1[i]?.bind fun a => l2[j]?.bind fun b => l3[k]?.bind fun c =>
          (l4[m]?).map fun d => (a, b, c, d) := by
  show (l1.flatMap fun a => l2.flatMap fun b => l3.flatMap fun c =>
      l4.map fun d => (a, b, c, d))[_]? = _
  rw [flatMap_getElem?_const (fun a => ?hlen3) l1 i _
      (mul_index_lt hj (mul_index_lt hk hm))]
  case hlen3 =>
    refine flatMap_length_const (fun b => ?_) l2
    refine flatMap_length_const (fun c => ?_) l3
    exact List.length_map l4 _
  congr 1
  funext a
  rw [flatMap_getElem?_const (fun b => ?hlen2) l2 j _ (mul_index_lt hk hm)]
  case hlen2 =>
    refine flatMap_length_const (fun c => ?_) l3
    exact List.length_map l4 _
  congr 1
  funext b
  rw [flatMap_getElem?_const (fun c => List.length_map l4 _) l3 k _ hm]
  congr 1
  funext c
  rw [List.getElem?_map]

/-- C3: the tuning configuration space is the full cartesian product of the
four parameter lists: it has exactly w*x*y*z elements; every tuple occurs
exactly as often as the product of its components' multiplicities (no
omissions, no duplicate suppression); and the element at row-major index
((i*x + j)*y + k)*z + m is the tuple of the i-th threshold, j-th concurrency,
k-th chunksize and m-th use_threads value, so the enumeration is in nested
iteration order with multipart_threshold varying outermost and use_threads
innermost. -/
theorem tuning_configuration_space (ths cons chks : List Nat) (raws : List String)
    (i j k m : Nat) (hi : i < ths.length) (hj : j < cons.length)
    (hk : k < chks.length) (hm : m < raws.length) :
    (itertools_product4 ths cons chks raws).length
        = ths.length * cons.length * chks.length * raws.length
    ∧ (∀ (a b c : Nat) (d : String),
        (itertools_product4 ths cons chks raws).count (a, b, c, d)
          = ths.count a * cons.count b * chks.count c * raws.count d)
    ∧ (itertools_product4 ths cons chks raws)[((i * cons.length + j) * chks.length + k)
          * raws.length + m]?
        = some (ths.get ⟨i, hi⟩, cons.get ⟨j, hj⟩, chks.get ⟨k, hk⟩,
            raws.get ⟨m, hm⟩) := by
  refine ⟨?_, ?_, ?_⟩
  · rw [itertools_product4_length]; ring
  · intro a b c d
    rw [itertools_product4_count]; ring
  · have hidx : ((i * cons.length + j) * chks.length + k) * raws.length + m
        = i * (cons.length * (chks.length * raws.length))
          + (j * (chks.length * raws.length) + (k * raws.length + m)) := by ring
    rw [hidx, itertools_product4_getElem? ths cons chks raws i j k m hj hk hm]
    rw [List.getElem?_eq_getElem hi, List.getElem?_eq_getElem hj,
      List.getElem?_eq_getElem hk, List.getElem?_eq_getElem hm]
    simp [List.get_eq_getElem]

/-- Witness for C3 on a 2 x 2 x 1 x 2 sweep, checking index 5, the tuple of
the second threshold, first concurrency, only chunksize and second
use_threads value. -/
theorem tuning_configuration_space_witness :
    (1 : Nat) < 2 ∧ (0 : Nat) < 2 ∧ (0 : Nat) < 1 ∧ (1 : Nat) < 2
    ∧ ((itertools_product4 [10485760, 52428800] [5, 10] [10485760]
            ["True", "False"]).length = 2 * 2 * 1 * 2
      ∧ (∀ (a b c : Nat) (d : String),
          (itertools_product4 [10485760, 52428800] [5, 10] [10485760]
              ["True", "False"]).count (a, b, c, d)
            = ([10485760, 52428800] : List Nat).count a * ([5, 10] : List Nat).count b
              * ([10485760] : List Nat).count c
              * (["True", "False"] : List String).count d)
      ∧ (itertools_product4 [10485760, 52428800] [5, 10] [10485760]
            ["True", "False"])[5]? = some (52428800, 5, 10485760, "False")) :=
  ⟨by decide, by decide, by decide, by decide,
    tuning_configuration_space [10485760, 52428800] [5, 10] [10485760]
      ["True", "False"] 1 0 0 1 (by decide) (by decide) (by decide) (by decide)⟩

/-- Helper: the product is empty as soon as one input list is empty. -/
theorem itertools_product4_eq_nil {α β γ δ : Type} (l1 : List α) (l2 : List β)
    (l3 : List γ) (l4 : List δ)
    (h : l1 = [] ∨ l2 = [] ∨ l3 = [] ∨ l4 = []) :
    itertools_product4 l1 l2 l3 l4 = [] := by
  rcases h with h | h | h | h <;> subst h <;>
    · rw [← List.length_eq_zero, itertools_product4_length]
      simp

/-- Counterexample for C5: no emptiness validation exists. With an empty
threshold list the generator returns the empty configuration list instead of
failing with any configuration error; the fixed-size download sweep over an
empty sizes list is a silent no-op; and the tuning pipeline fails only
afterwards, at the selector, with the ValueError that max raises. -/
theorem empty_sweep_is_noop_not_config_error :
    itertools_product4 ([] : List Nat) [10] [10485760] (["True"] : List String) = []
    ∧ Tune.run [] [10] [10485760] ["True"] (fun _ => 2) (fun _ => 104857600)
        = Except.error (PyError.valueError "max() arg is an empty sequence")
    ∧ Download.sweep [] 52428800 10 52428800 true (fun _ => 2) (fun _ => 104857600)
        = [] :=
  ⟨rfl, rfl, rfl⟩

/-- C5 amended: the sweeps perform no emptiness validation. Any empty
parameter list makes the generated configuration space empty, the tuning
sweep loop a no-op that attempts zero transfers, and the tuning run fails
only afterwards, at the selector, with the ValueError max raises on an empty
sequence; the fixed-size download sweep over an empty sizes list simply
produces no rows and no error. -/
theorem empty_parameter_list_no_validation (ths cons chks : List Nat)
    (raws : List String) (dur fsz : Nat × Nat × Nat × String → ℚ)
    (thr conc chunk : Nat) (ut : Bool) (dur2 fsz2 : Nat → ℚ)
    (h : ths = [] ∨ cons = [] ∨ chks = [] ∨ raws = []) :
    itertools_product4 ths cons chks raws = []
    ∧ Tune.sweep ths cons chks raws dur fsz = []
    ∧ Tune.run ths cons chks raws dur fsz
        = Except.error (PyError.valueError "max() arg is an empty sequence")
    ∧ Download.sweep [] thr conc chunk ut dur2 fsz2 = [] := by
  have hnil := itertools_product4_eq_nil ths cons chks raws h
  have hsweep : Tune.sweep ths cons chks raws dur fsz = [] := by
    simp [Tune.sweep, hnil]
  refine ⟨hnil, hsweep, ?_, rfl⟩
  simp [Tune.run, Tune.find_fastest_parameters, hsweep, pymax]

/-- Witness for C5 amended with an empty threshold list. -/
theorem empty_parameter_list_no_validation_witness :
    (([] : List Nat) = [] ∨ ([10] : List Nat) = [] ∨ ([10485760] : List Nat) = []
        ∨ (["True"] : List String) = [])
    ∧ (itertools_product4 ([] : List Nat) [10] [10485760] (["True"] : List String) = []
      ∧ Tune.sweep [] [10] [10485760] ["True"] (fun _ => 3) (fun _ => 104857600) = []
      ∧ Tune.run [] [10] [10485760] ["True"] (fun _ => 3) (fun _ => 104857600)
          = Except.error (PyError.valueError "max() arg is an empty sequence")
      ∧ Download.sweep [] 52428800 10 52428800 true (fun _ => 3)
          (fun _ => 104857600) = []) :=
  ⟨Or.inl rfl,
    empty_parameter_list_no_validation [] [10] [10485760] ["True"]
      (fun _ => 3) (fun _ => 104857600) 52428800 10 52428800 true (fun _ => 3)
      (fun _ => 104857600) (Or.inl rfl)⟩
